import Mathlib

/-!
Shallow embedding of the MailHog-Server real-time fan-out layer.

The embedding covers:
* the websocket connection constants (`writeWait`, `pongWait`, `pingPeriod`,
  `maxMessageSize`);
* `connection.fetchNamespace`, which derives an event's namespace from the
  `X-Fields` routing header (JSON decoding of the header value is abstracted
  by a `jsonMs : String → Option String` parameter standing for
  `json.Unmarshal` extracting the `ms` field, `none` meaning a decode error;
  a `none` result of `fetchNamespace` itself models a Go runtime panic);
* one iteration of `connection.writeLoop` (`writeStep`), parameterised by the
  item received from the `send` channel and by whether the underlying
  transport write returns an error, producing the trace of transport
  operations performed and whether the loop continues, returns, or panics;
* the deferred cleanup sequences of `connection.readLoop` and
  `connection.writeLoop`;
* one iteration of `connection.readLoop` (`readStep`), using the
  gorilla/websocket contract that reading from a closed connection fails;
* the `CreateAPI` distributor goroutine, as the ordered trace of handoffs of
  each consumed message to the v1, v2 and v3 pipelines;
* the `APIv3.websocket` subscribe handler.
-/

namespace Spec2Proof

/-- One nanosecond-count second, mirroring Go `time.Second` (a
`time.Duration` is an integer number of nanoseconds). -/
def second : Nat := 1000000000

/-- `writeWait = 10 * time.Second`: time allowed to write a message to the
peer. -/
def writeWait : Nat := 10 * second

/-- `pongWait = 60 * time.Second`: time allowed to read the next pong
message from the peer. -/
def pongWait : Nat := 60 * second

/-- `pingPeriod = (pongWait * 9) / 10`: period of liveness probes. -/
def pingPeriod : Nat := (pongWait * 9) / 10

/-- `maxMessageSize = 1`: maximum message size allowed from the peer. -/
def maxMessageSize : Nat := 1

/-- The header map of a message's content, `data.MessageContent.Headers`,
a Go `map[string][]string` embedded as an association list. -/
structure MailContent where
  Headers : List (String × List String)
deriving DecidableEq

/-- A `*data.Message` arrival event; only the content header map is
relevant to the fan-out core. -/
structure Message where
  Content : MailContent
deriving DecidableEq

/-- `connection.fetchNamespace`.  `jsonMs` abstracts
`json.Unmarshal([]byte(xField), &struct{ Microservice string }{...})`:
`none` is a decode error, `some ms` the decoded `ms` field (possibly empty).
The source guard is `if !ok && len(xFields) == 0 { return "" }`; when the
key is present with an empty value list the guard does not fire and
`xFields[0]` panics with an index-out-of-range runtime error, which this
embedding renders as `none`. -/
def fetchNamespace (jsonMs : String → Option String) (msg : Message) :
    Option String :=
  let found := msg.Content.Headers.lookup "X-Fields"
  let ok := found.isSome
  let xFields := found.getD []
  if !ok && xFields.length == 0 then
    some ""
  else
    match xFields with
    | [] => none
    | xField :: _ =>
      match jsonMs xField with
      | none => some ""
      | some ms => some ms

/-- gorilla/websocket `CloseMessage` frame type. -/
def closeMessage : Nat := 8

/-- gorilla/websocket `PingMessage` frame type. -/
def pingMessage : Nat := 9

/-- An operation performed on the websocket transport. -/
inductive WSOp where
  | setWriteDeadline (d : Nat)
  | writeMessage (messageType : Nat)
  | writeJSONPayload (m : Message)
deriving DecidableEq

/-- `connection.writeJSON`: sets the write deadline to `writeWait` from now,
then writes the JSON-serialized message. -/
def writeJSONops (m : Message) : List WSOp :=
  [WSOp.setWriteDeadline writeWait, WSOp.writeJSONPayload m]

/-- `connection.writeControl`: sets the write deadline to `writeWait` from
now, then writes a control frame of the given type with empty payload. -/
def writeControlOps (t : Nat) : List WSOp :=
  [WSOp.setWriteDeadline writeWait, WSOp.writeMessage t]

/-- What one `select` iteration of `connection.writeLoop` received:
a `*data.Message` from the `send` channel, a value of some other dynamic
type from the `send` channel, the `send` channel reported closed
(`ok == false`), or the ping ticker fired. -/
inductive QueueItem where
  | msg (m : Message)
  | nonMessage
  | closed
  | tick
deriving DecidableEq

/-- Outcome of one `writeLoop` iteration: the loop keeps running, returns
(the connection is torn down), or panics; each outcome carries the trace of
transport operations the iteration performed. -/
inductive StepOut where
  | cont (ops : List WSOp)
  | stop (ops : List WSOp)
  | panicked (ops : List WSOp)
deriving DecidableEq

/-- The transport operations performed by a `writeLoop` iteration. -/
def StepOut.ops : StepOut → List WSOp
  | .cont l => l
  | .stop l => l
  | .panicked l => l

/-- Whether the loop keeps running after the iteration. -/
def StepOut.isCont : StepOut → Bool
  | .cont _ => true
  | _ => false

/-- One iteration of `connection.writeLoop` for a connection bound to
namespace `ns`.  `writeErr` is whether the transport write performed in this
iteration (if any) returns an error; in particular it is `true` whenever the
underlying websocket connection has been closed. -/
def writeStep (jsonMs : String → Option String) (ns : String)
    (item : QueueItem) (writeErr : Bool) : StepOut :=
  match item with
  | .closed => .stop (writeControlOps closeMessage)
  | .nonMessage => .stop []
  | .msg m =>
    match fetchNamespace jsonMs m with
    | none => .panicked []
    | some ns2 =>
      if ns2 ≠ ns then .stop []
      else if writeErr then .stop (writeJSONops m) else .cont (writeJSONops m)
  | .tick =>
    if writeErr then .stop (writeControlOps pingMessage)
    else .cont (writeControlOps pingMessage)

/-- A step of a connection's deferred teardown code. -/
inductive CleanupOp where
  | unregister
  | closeTransport
  | stopTicker
deriving DecidableEq

/-- The deferred cleanup of `connection.readLoop`:
`c.hub.unregisterChan <- c; c.ws.Close()`. -/
def readLoopCleanup : List CleanupOp :=
  [CleanupOp.unregister, CleanupOp.closeTransport]

/-- The deferred cleanup of `connection.writeLoop`:
`ticker.Stop(); c.ws.Close()`. -/
def writeLoopCleanup : List CleanupOp :=
  [CleanupOp.stopTicker, CleanupOp.closeTransport]

/-- Whether `c.ws.NextReader()` returns an error, per the gorilla/websocket
contract: it fails when the connection has been closed locally, when the
peer closed, or when the read deadline expired. -/
def nextReaderErr (wsClosed peerClosed deadlineExpired : Bool) : Bool :=
  wsClosed || peerClosed || deadlineExpired

/-- One iteration of the `connection.readLoop` body: `true` means the loop
keeps running, `false` means `NextReader` failed and the loop returns. -/
def readStep (wsClosed peerClosed deadlineExpired : Bool) : Bool :=
  !(nextReaderErr wsClosed peerClosed deadlineExpired)

/-- The three per-generation API pipelines fed by `CreateAPI`. -/
inductive Pipeline where
  | v1
  | v2
  | v3
deriving DecidableEq

/-- The ordered handoffs the `CreateAPI` goroutine performs for one message
drawn from `conf.MessageChan`: `apiv1.messageChan <- msg`, then
`apiv2.messageChan <- msg`, then `apiv3.messageChan <- msg`; each send is on
an unbuffered channel, so the trace order is the acceptance order. -/
def distributeOne (m : Message) : List (Pipeline × Message) :=
  [(Pipeline.v1, m), (Pipeline.v2, m), (Pipeline.v3, m)]

/-- The handoff trace of the `CreateAPI` goroutine over a sequence of
messages consumed from `conf.MessageChan`, in order. -/
def distribute : List Message → List (Pipeline × Message)
  | [] => []
  | m :: rest => distributeOne m ++ distribute rest

/-- The sequence of messages a given pipeline receives from a handoff
trace, in trace order. -/
def receivedBy (p : Pipeline) (tr : List (Pipeline × Message)) :
    List Message :=
  (tr.filter (fun e => e.1 == p)).map (fun e => e.2)

/-- `http.StatusBadRequest`. -/
def StatusBadRequest : Nat := 400

/-- Observable outcome of the `APIv3.websocket` handler: either an HTTP
status write, or handing the request to `wsHub.ServeWithNamespace ns`. -/
inductive HttpOut where
  | status (code : Nat)
  | serveNamespace (ns : String)
deriving DecidableEq

/-- `APIv3.websocket`: reads the `namespace` route variable (`mux.Vars`,
empty string when absent), answers 400 when it is empty, otherwise upgrades
via `wsHub.ServeWithNamespace`. -/
def websocketHandler (vars : List (String × String)) : HttpOut :=
  let ns := (vars.lookup "namespace").getD ""
  if ns.length = 0 then HttpOut.status StatusBadRequest
  else HttpOut.serveNamespace ns

/-- A message with no headers at all. -/
def msgNoHeaders : Message := ⟨⟨[]⟩⟩

/-- A message whose `X-Fields` header is present with an empty value
list. -/
def msgEmptyXFields : Message := ⟨⟨[("X-Fields", [])]⟩⟩

/-- A message whose `X-Fields` header has the single value `v`. -/
def msgXFields (v : String) : Message := ⟨⟨[("X-Fields", [v])]⟩⟩

/-- Helper: each message handed off by the distributor is received exactly
once by each pipeline, at the head of that pipeline's projection. -/
theorem receivedBy_distributeOne_append (p : Pipeline) (m : Message)
    (tr : List (Pipeline × Message)) :
    receivedBy p (distributeOne m ++ tr) = m :: receivedBy p tr := by
  cases p <;> simp [receivedBy, distributeOne]

/-- Claim C1: a `writeLoop` iteration on a dequeued message writes the
serialized event to the transport only when the namespace derived by
`fetchNamespace` equals the connection's bound namespace, and when the
derived namespace differs the iteration returns (tearing the connection
down) without performing any transport operation. -/
theorem writeLoop_namespace_gating (jsonMs : String → Option String)
    (ns : String) (m : Message) (writeErr : Bool) (ns2 : String)
    (h : fetchNamespace jsonMs m = some ns2) :
    (ns2 ≠ ns →
      writeStep jsonMs ns (QueueItem.msg m) writeErr = StepOut.stop []) ∧
    (WSOp.writeJSONPayload m ∈
        (writeStep jsonMs ns (QueueItem.msg m) writeErr).ops →
      ns2 = ns) := by
  constructor
  · intro hne
    simp [writeStep, h, hne]
  · intro hmem
    by_contra hne
    simp [writeStep, h, hne, StepOut.ops] at hmem

/-- Witness for C1 at a concrete mismatching input. -/
theorem writeLoop_namespace_gating_witness :
    writeStep (fun s => some s) "a" (QueueItem.msg (msgXFields "b")) false
      = StepOut.stop [] :=
  (writeLoop_namespace_gating (fun s => some s) "a" (msgXFields "b") false
    "b" rfl).1 (by decide)

/-- Claim C2 (code bug): `fetchNamespace` maps an absent `X-Fields` header
and an unparsable first value to the empty string, but a present `X-Fields`
header with an empty value list slips past the `!ok && len(xFields) == 0`
guard and panics at `xFields[0]` (rendered `none` here), so namespace
derivation is not total. -/
theorem fetchNamespace_not_total :
    fetchNamespace (fun _ => none) msgNoHeaders = some "" ∧
    fetchNamespace (fun _ => none) (msgXFields "not-json") = some "" ∧
    fetchNamespace (fun _ => some "a") msgEmptyXFields = none :=
  ⟨rfl, rfl, rfl⟩

/-- Claim C3: the `CreateAPI` goroutine hands each consumed message to the
pipelines in the fixed order v1, v2, v3 (unbuffered sends, so handoff k+1
starts only after handoff k is accepted, which the trace order records),
and consequently every pipeline receives exactly the distributor's input
sequence, in order. -/
theorem distributor_ordered_handoff (ms : List Message) (p : Pipeline) :
    receivedBy p (distribute ms) = ms ∧
    ∀ m, distributeOne m
      = [(Pipeline.v1, m), (Pipeline.v2, m), (Pipeline.v3, m)] := by
  refine ⟨?_, fun _ => rfl⟩
  induction ms with
  | nil => cases p <;> rfl
  | cons m rest ih =>
    rw [distribute, receivedBy_distributeOne_append, ih]

/-- Claim C4 counterexample: the claim says every termination path
unregisters the Subscription before releasing its transport, but the
deferred cleanup of `connection.writeLoop` closes the websocket without
ever unregistering, so on delivery-loop termination the transport is
released while the Subscription is still registered. -/
theorem writeLoop_cleanup_closes_while_registered :
    CleanupOp.closeTransport ∈ writeLoopCleanup ∧
    CleanupOp.unregister ∉ writeLoopCleanup := by
  decide

/-- Claim C4 (amended): on the liveness-detector (`readLoop`) termination
path the Subscription is unregistered before its transport is closed,
while the delivery-loop (`writeLoop`) termination path closes the
transport without unregistering; unregistration then happens only through
the read loop's induced failure. -/
theorem termination_cleanup_order :
    readLoopCleanup = [CleanupOp.unregister, CleanupOp.closeTransport] ∧
    writeLoopCleanup = [CleanupOp.stopTicker, CleanupOp.closeTransport] ∧
    CleanupOp.unregister ∉ writeLoopCleanup := by
  decide

/-- Claim C5: the two activities are coupled through the shared transport:
whichever loop returns first closes the websocket in its deferred cleanup,
reading from a closed websocket fails so the next `readLoop` iteration
returns, and every transport write fails (`writeErr = true`) so the next
`writeLoop` iteration — on any dequeued item or ticker fire — does not
continue; hence neither activity can keep running alone. -/
theorem activity_failure_coupling :
    CleanupOp.closeTransport ∈ writeLoopCleanup ∧
    CleanupOp.closeTransport ∈ readLoopCleanup ∧
    (∀ peerClosed deadlineExpired,
      readStep true peerClosed deadlineExpired = false) ∧
    (∀ jsonMs ns item,
      (writeStep jsonMs ns item true).isCont = false) := by
  refine ⟨by decide, by decide, fun _ _ => rfl, fun jsonMs ns item => ?_⟩
  cases item with
  | msg m =>
    cases h : fetchNamespace jsonMs m with
    | none => simp [writeStep, h, StepOut.isCont]
    | some ns2 =>
      by_cases hne : ns2 = ns <;> simp [writeStep, h, hne, StepOut.isCont]
  | nonMessage => rfl
  | closed => rfl
  | tick => rfl

/-- Claim C6: for a matching event, the iteration sets the write deadline
(`writeWait` from now) before writing the serialized event, and a write
error makes the iteration return (teardown) instead of continuing. -/
theorem matching_event_write_deadline (jsonMs : String → Option String)
    (ns : String) (m : Message) (writeErr : Bool)
    (h : fetchNamespace jsonMs m = some ns) :
    writeStep jsonMs ns (QueueItem.msg m) writeErr
      = (if writeErr then StepOut.stop (writeJSONops m)
         else StepOut.cont (writeJSONops m)) ∧
    writeJSONops m
      = [WSOp.setWriteDeadline writeWait, WSOp.writeJSONPayload m] := by
  refine ⟨?_, rfl⟩
  simp [writeStep, h]

/-- Witness for C6 at a concrete matching input with a failing write. -/
theorem matching_event_write_deadline_witness :
    writeStep (fun s => some s) "a" (QueueItem.msg (msgXFields "a")) true
      = StepOut.stop (writeJSONops (msgXFields "a")) ∧
    writeJSONops (msgXFields "a")
      = [WSOp.setWriteDeadline writeWait,
         WSOp.writeJSONPayload (msgXFields "a")] := by
  have h := matching_event_write_deadline (fun s => some s) "a"
    (msgXFields "a") true rfl
  simpa using h

/-- Claim C7: the ping period is exactly 9/10 of the pong-wait budget and
strictly below it (54s against 60s), and the inbound frame-size cap is 1
byte. -/
theorem keepalive_constants :
    pingPeriod * 10 = pongWait * 9 ∧
    pingPeriod < pongWait ∧
    pongWait = 60 * second ∧
    pingPeriod = 54 * second ∧
    maxMessageSize = 1 := by
  refine ⟨rfl, ?_, rfl, rfl, rfl⟩
  norm_num [pingPeriod, pongWait, second]

/-- Claim C8: the `APIv3.websocket` handler answers 400 when the
`namespace` route variable is absent or empty, creating no subscription,
and otherwise hands the request to `ServeWithNamespace` with that
namespace. -/
theorem websocket_requires_namespace (vars : List (String × String))
    (ns : String) (hns : ns = ((vars.lookup "namespace").getD "")) :
    (ns.length = 0 →
      websocketHandler vars = HttpOut.status StatusBadRequest) ∧
    (ns.length ≠ 0 →
      websocketHandler vars = HttpOut.serveNamespace ns) := by
  subst hns
  constructor
  · intro h0
    simp [websocketHandler, h0]
  · intro h0
    simp [websocketHandler, h0]

/-- Witness for C8: absent namespace gives 400, a concrete namespace is
served. -/
theorem websocket_requires_namespace_witness :
    websocketHandler [] = HttpOut.status StatusBadRequest ∧
    websocketHandler [("namespace", "ms1")] = HttpOut.serveNamespace "ms1" :=
  ⟨(websocket_requires_namespace [] "" rfl).1 rfl,
   (websocket_requires_namespace [("namespace", "ms1")] "ms1" rfl).2
     (by decide)⟩

/-- Claim C9: an item dequeued from the `send` channel that is not a
`*data.Message` makes the `writeLoop` iteration return — tearing the
connection down — without performing any transport operation. -/
theorem nonmessage_item_kills_connection :
    ∀ (jsonMs : String → Option String) (ns : String) (writeErr : Bool),
      writeStep jsonMs ns QueueItem.nonMessage writeErr = StepOut.stop [] :=
  fun _ _ _ => rfl

/-- Claim C10: when the `send` channel is reported closed, the `writeLoop`
iteration sets the bounded write deadline and writes a websocket Close
control frame to the peer, then returns. -/
theorem closed_queue_sends_close_frame :
    ∀ (jsonMs : String → Option String) (ns : String) (writeErr : Bool),
      writeStep jsonMs ns QueueItem.closed writeErr
        = StepOut.stop (writeControlOps closeMessage) ∧
      writeControlOps closeMessage
        = [WSOp.setWriteDeadline writeWait,
           WSOp.writeMessage closeMessage] :=
  fun _ _ _ => ⟨rfl, rfl⟩

end Spec2Proof
